import Mathlib

/-!
Shallow embedding of the CitizenConnect 2.0 complaint API (src/main.py).

Modelling choices:
* The four `Literal` string enums become inductive types, each paired with the
  list of strings its `Literal` accepts and a parser mirroring pydantic's
  enum validation.
* `datetime` timestamps become `Nat` (an abstract clock value); `uuid.uuid4()`
  becomes an abstract 128-bit number `r : Nat` whose top six hex nibbles are
  taken, exactly as `uuid4().hex[:6]` does. Both are passed to `create_complaint`
  as explicit parameters since they are external inputs of the handler.
* The `float` lat/lng of `Location` are carried as opaque numeric data (`Int`);
  no claim inspects them numerically.
* The global `DB: Dict[str, Complaint]` becomes an insertion-ordered
  association list: `dictGet` is `DB.get`, `dictSet` is `DB[k] = v`
  (replace in place when the key is present, append otherwise), and
  `dictValues` is `DB.values()` — the semantics of a Python dict.
-/

inductive Category where
  | roads | water | electricity | health | education | sanitation
  | publicTransport | wasteManagement | safety | others
deriving DecidableEq, Fintype

inductive Priority where
  | high | medium | low
deriving DecidableEq

inductive Level where
  | loc | state | central
deriving DecidableEq

inductive Status where
  | pending | inProgress | resolved
deriving DecidableEq

/-- The strings accepted by the `Category` Literal in src/main.py. -/
def categoryStrings : List String :=
  ["Roads", "Water", "Electricity", "Health", "Education", "Sanitation",
   "Public Transport", "Waste Management", "Safety", "Others"]

def priorityStrings : List String := ["High", "Medium", "Low"]

def levelStrings : List String := ["Local", "State", "Central"]

/-- Serialization of a `Category` back to its Literal string (used as the
`by_category` dict key in `stats`). -/
def categoryStr : Category → String
  | .roads => "Roads"
  | .water => "Water"
  | .electricity => "Electricity"
  | .health => "Health"
  | .education => "Education"
  | .sanitation => "Sanitation"
  | .publicTransport => "Public Transport"
  | .wasteManagement => "Waste Management"
  | .safety => "Safety"
  | .others => "Others"

/-- Pydantic's validation of the `Category` Literal: a string is accepted
iff it is one of the ten listed values. -/
def parseCategory (s : String) : Option Category :=
  if s = "Roads" then some .roads
  else if s = "Water" then some .water
  else if s = "Electricity" then some .electricity
  else if s = "Health" then some .health
  else if s = "Education" then some .education
  else if s = "Sanitation" then some .sanitation
  else if s = "Public Transport" then some .publicTransport
  else if s = "Waste Management" then some .wasteManagement
  else if s = "Safety" then some .safety
  else if s = "Others" then some .others
  else none

def parsePriority (s : String) : Option Priority :=
  if s = "High" then some .high
  else if s = "Medium" then some .medium
  else if s = "Low" then some .low
  else none

def parseLevel (s : String) : Option Level :=
  if s = "Local" then some .loc
  else if s = "State" then some .state
  else if s = "Central" then some .central
  else none

/-- Model of `class Location(BaseModel)`: lat/lng carried opaquely. -/
structure Location where
  lat : Int
  lng : Int
deriving DecidableEq

/-- Model of `class ComplaintIn(BaseModel)` — the request payload after validation. -/
structure ComplaintIn where
  user_id : String
  text : String
  voice_url : Option String := none
  category : Category
  priority : Priority
  level : Level
  district : Option String := none
  location : Option Location := none
  assigned_to : Option String := none
deriving DecidableEq

/-- Model of `class Complaint(ComplaintIn)` with the extra server-side fields. -/
structure Complaint extends ComplaintIn where
  complaint_id : String
  status : Status := .pending
  timestamp : Nat
deriving DecidableEq

/-- The in-memory store `DB: Dict[str, Complaint]`, as an insertion-ordered
association list. -/
abbrev DB := List (String × Complaint)

/-- Python `DB.get(k)`: first binding of the key, if any. -/
def dictGet : DB → String → Option Complaint
  | [], _ => none
  | (k', v) :: rest, k => if k' = k then some v else dictGet rest k

/-- Python `DB[k] = v`: replace in place if the key is present, append otherwise. -/
def dictSet : DB → String → Complaint → DB
  | [], k, v => [(k, v)]
  | (k', v') :: rest, k, v =>
      if k' = k then (k, v) :: rest else (k', v') :: dictSet rest k v

/-- Python `DB.values()` in insertion order. -/
def dictValues (db : DB) : List Complaint := db.map Prod.snd

/-- A decimal digit character, as Python's str(int) emits. -/
def decDigit (d : Nat) : Char := Char.ofNat (48 + d)

/-- Decimal digits of `n`, most significant first; `fuel` bounds the recursion
and any `fuel > n` is sufficient. -/
def natDecDigitsAux : Nat → Nat → List Char
  | 0, _ => []
  | fuel + 1, n =>
      if n < 10 then [decDigit n]
      else natDecDigitsAux fuel (n / 10) ++ [decDigit (n % 10)]

/-- Python's `str(n)` / f-string rendering of a nonnegative integer. -/
def natDecString (n : Nat) : String := ⟨natDecDigitsAux (n + 1) n⟩

/-- Nibble `i` (from the most significant end) of the 128-bit uuid value `r`:
character `i` of `uuid4().hex` is the hex digit of this nibble. -/
def uuidHexDigit (r i : Nat) : Nat := r / 16 ^ (31 - i) % 16

/-- Uppercase hex digit character, as `.hex[:6].upper()` produces. -/
def hexUpperChar (d : Nat) : Char :=
  if d < 10 then Char.ofNat (48 + d) else Char.ofNat (55 + d)

/-- The string `uuid4().hex[:6].upper()` for uuid value `r`. -/
def uuidHex6 (r : Nat) : String :=
  ⟨(List.range 6).map fun i => hexUpperChar (uuidHexDigit r i)⟩

/-- The id string `f"CC{datetime.utcnow().year}-{uuid.uuid4().hex[:6].upper()}"`. -/
def mkComplaintId (year r : Nat) : String :=
  "CC" ++ natDecString year ++ "-" ++ uuidHex6 r

/-- Handler `create_complaint` (POST /complaints): builds the id from the current year
and the fresh uuid, stamps the clock, stores and returns the record.
`year`, `r` (uuid) and `now` (utcnow) are the handler's external inputs. -/
def create_complaint (db : DB) (payload : ComplaintIn) (year r now : Nat) :
    Complaint × DB :=
  let cid := mkComplaintId year r
  let comp : Complaint :=
    { toComplaintIn := payload, complaint_id := cid, status := .pending,
      timestamp := now }
  (comp, dictSet db cid comp)

/-- The descending-timestamp ordering used by `items.sort(key=..., reverse=True)`. -/
def tsDesc (a b : Complaint) : Prop := b.timestamp ≤ a.timestamp

instance : DecidableRel tsDesc := fun _ _ => Nat.decLe _ _

instance : IsTotal Complaint tsDesc :=
  ⟨fun a b => Nat.le_total b.timestamp a.timestamp⟩

instance : IsTrans Complaint tsDesc :=
  ⟨fun _ _ _ h1 h2 => Nat.le_trans h2 h1⟩

/-- Handler `list_complaints` (GET /complaints): optional status filter, then a stable
sort newest-first. (`if status:` is true exactly when a status was supplied,
since the three Status strings are non-empty and hence truthy.) -/
def list_complaints (db : DB) (status : Option Status) : List Complaint :=
  let items := dictValues db
  let items2 := match status with
    | some s => items.filter fun c => c.status = s
    | none => items
  List.insertionSort tsDesc items2

/-- The FastAPI `HTTPException` data: status code and detail message. -/
structure HTTPError where
  status_code : Nat
  detail : String
deriving DecidableEq

/-- Handler `update_status` (PATCH /complaints/:complaint_id): 404 when the id is
absent (a pydantic model is always truthy, so `if not comp` means `comp is
None`); otherwise overwrite the status in place and return the record. -/
def update_status (db : DB) (complaint_id : String) (newStatus : Status) :
    Except HTTPError (Complaint × DB) :=
  match dictGet db complaint_id with
  | none => .error ⟨404, "Complaint not found"⟩
  | some comp =>
      let comp2 := { comp with status := newStatus }
      .ok (comp2, dictSet db complaint_id comp2)

/-- The JSON object returned by `stats` (GET /stats); `by_category` is a
Python dict from category string to count, again an insertion-ordered
association list. -/
structure StatsOut where
  total : Nat
  pending : Nat
  in_progress : Nat
  resolved : Nat
  by_category : List (String × Nat)
deriving DecidableEq

/-- Python `by_category.get(k, 0)`. -/
def countsGet : List (String × Nat) → String → Option Nat
  | [], _ => none
  | (k', n) :: rest, k => if k' = k then some n else countsGet rest k

/-- Python `by_category[k] = by_category.get(k, 0) + 1` (one loop iteration). -/
def bumpCategory : List (String × Nat) → String → List (String × Nat)
  | [], k => [(k, 1)]
  | (k', n) :: rest, k =>
      if k' = k then (k, n + 1) :: rest else (k', n) :: bumpCategory rest k

/-- The `for c in DB.values(): by_category[c.category] = ... + 1` loop. -/
def statsByCategory (cs : List Complaint) : List (String × Nat) :=
  cs.foldl (fun m c => bumpCategory m (categoryStr c.category)) []

/-- Handler `stats` (GET /stats). -/
def stats (db : DB) : StatsOut :=
  { total := db.length
  , pending := ((dictValues db).filter fun c => c.status = .pending).length
  , in_progress := ((dictValues db).filter fun c => c.status = .inProgress).length
  , resolved := ((dictValues db).filter fun c => c.status = .resolved).length
  , by_category := statsByCategory (dictValues db) }

/-- A request body before pydantic validation of the three enum fields
(the spec scopes validation to type/enum checks; the non-enum fields are
already of the right shape). -/
structure RawComplaintIn where
  user_id : String
  text : String
  voice_url : Option String := none
  category : String
  priority : String
  level : String
  district : Option String := none
  location : Option Location := none
  assigned_to : Option String := none
deriving DecidableEq

/-- A pydantic validation failure, carrying the offending field's name
(the `loc` part of the 422 error detail). -/
structure ValidationErr where
  field : String
deriving DecidableEq

/-- Pydantic's validation of `ComplaintIn`: each enum field must parse. -/
def validateComplaintIn (rc : RawComplaintIn) : Except ValidationErr ComplaintIn :=
  match parseCategory rc.category with
  | none => .error ⟨"category"⟩
  | some cat =>
    match parsePriority rc.priority with
    | none => .error ⟨"priority"⟩
    | some pr =>
      match parseLevel rc.level with
      | none => .error ⟨"level"⟩
      | some lv =>
        .ok { user_id := rc.user_id, text := rc.text, voice_url := rc.voice_url,
              category := cat, priority := pr, level := lv,
              district := rc.district, location := rc.location,
              assigned_to := rc.assigned_to }

/-- POST /complaints including the validation layer: on a validation error the
handler body never runs and the store is untouched. -/
def postComplaint (db : DB) (rc : RawComplaintIn) (year r now : Nat) :
    Except ValidationErr Complaint × DB :=
  match validateComplaintIn rc with
  | .error e => (.error e, db)
  | .ok p =>
      let res := create_complaint db p year r now
      (.ok res.1, res.2)

/-- Modelled from the spec (refinement target for the id format): a string of
shape `CC<4-digit year>-<6 uppercase hex chars>`. -/
def specDecChar (c : Char) : Bool := decide ('0' ≤ c) && decide (c ≤ '9')

def specHexUpperChar (c : Char) : Bool :=
  specDecChar c || (decide ('A' ≤ c) && decide (c ≤ 'F'))

def spec_id_format (s : String) : Bool :=
  match s.data with
  | 'C' :: 'C' :: rest =>
      decide ((rest.take 4).length = 4) && (rest.take 4).all specDecChar &&
      match rest.drop 4 with
      | '-' :: hex => decide (hex.length = 6) && hex.all specHexUpperChar
      | _ => false
  | _ => false

/-- A sample complaint record, for concrete witnesses. -/
def mkSample (cat : Category) (st : Status) (cid : String) (ts : Nat) : Complaint :=
  { user_id := "u1", text := "streetlight broken", voice_url := none,
    category := cat, priority := .high, level := .loc, district := none,
    location := none, assigned_to := none,
    complaint_id := cid, status := st, timestamp := ts }

/-- A sample payload, for concrete witnesses. -/
def samplePayload (cat : Category) : ComplaintIn :=
  { user_id := "u1", text := "streetlight broken", category := cat,
    priority := .medium, level := .state }

/-! ### Association-list (Python dict) lemmas -/

theorem dictGet_dictSet_self (db : DB) (k : String) (v : Complaint) :
    dictGet (dictSet db k v) k = some v := by
  induction db with
  | nil => simp [dictSet, dictGet]
  | cons p rest ih =>
      obtain ⟨k', v'⟩ := p
      by_cases h : k' = k <;> simp [dictSet, dictGet, h, ih]

theorem dictGet_dictSet_ne (db : DB) {k k2 : String} (v : Complaint) (h : k2 ≠ k) :
    dictGet (dictSet db k v) k2 = dictGet db k2 := by
  induction db with
  | nil => simp [dictSet, dictGet, Ne.symm h]
  | cons p rest ih =>
      obtain ⟨k', v'⟩ := p
      by_cases hk : k' = k
      · subst hk
        simp [dictSet, dictGet, Ne.symm h]
      · simp [dictSet, dictGet, hk, ih]

theorem dictSet_keys_of_present (db : DB) (k : String) (v c : Complaint)
    (h : dictGet db k = some c) :
    (dictSet db k v).map Prod.fst = db.map Prod.fst := by
  induction db with
  | nil => simp [dictGet] at h
  | cons p rest ih =>
      obtain ⟨k', v'⟩ := p
      by_cases hk : k' = k
      · subst hk; simp [dictSet]
      · rw [dictGet, if_neg hk] at h
        simp [dictSet, hk, ih h]

theorem dictSet_of_absent (db : DB) (k : String) (v : Complaint)
    (h : dictGet db k = none) : dictSet db k v = db ++ [(k, v)] := by
  induction db with
  | nil => simp [dictSet]
  | cons p rest ih =>
      obtain ⟨k', v'⟩ := p
      by_cases hk : k' = k
      · rw [dictGet, if_pos hk] at h; cases h
      · rw [dictGet, if_neg hk] at h
        simp [dictSet, hk, ih h]

example : mkComplaintId 2025 0 = "CC2025-000000" := by decide

example : spec_id_format "CC2025-0A3F9B" = true := by decide

example : (stats [("a", mkSample .roads .pending "a" 1),
                  ("b", mkSample .roads .resolved "b" 2),
                  ("c", mkSample .water .pending "c" 3)]).by_category
    = [("Roads", 2), ("Water", 1)] := by decide

/-! ### C1 / C2: update_status -/

/-- C1: `update_status(id, newStatus)` fails with the 404 "Complaint not found"
error if and only if `id` is absent from the registry; when `id` is present it
overwrites that complaint's status with `newStatus` and returns the updated
record (which is also what gets stored). -/
theorem update_status_spec (db : DB) (id : String) (s : Status) :
    (update_status db id s = .error ⟨404, "Complaint not found"⟩ ↔
      dictGet db id = none) ∧
    ∀ c, dictGet db id = some c →
      update_status db id s =
        .ok ({ c with status := s }, dictSet db id { c with status := s }) := by
  refine ⟨⟨fun h => ?_, fun h => by simp [update_status, h]⟩,
    fun c h => by simp [update_status, h]⟩
  cases hg : dictGet db id with
  | none => rfl
  | some c => simp [update_status, hg] at h

/-- C1 witness at a concrete one-element registry. -/
theorem update_status_spec_witness :
    update_status [("CC2025-000000", mkSample .roads .pending "CC2025-000000" 5)]
        "CC2025-FFFFFF" .resolved = .error ⟨404, "Complaint not found"⟩ ∧
    update_status [("CC2025-000000", mkSample .roads .pending "CC2025-000000" 5)]
        "CC2025-000000" .resolved =
      .ok (mkSample .roads .resolved "CC2025-000000" 5,
        [("CC2025-000000", mkSample .roads .resolved "CC2025-000000" 5)]) :=
  ⟨(update_status_spec _ "CC2025-FFFFFF" .resolved).1.mpr (by decide),
   (update_status_spec _ "CC2025-000000" .resolved).2
     (mkSample .roads .pending "CC2025-000000" 5) (by decide)⟩

/-- C2: on an existing `id`, `update_status` changes only the status field of
the complaint stored under `id` — its id, timestamp and all payload fields are
unchanged — and every other key of the registry maps to its old record; the
key sequence of the registry is also unchanged. -/
theorem update_status_frame (db : DB) (id : String) (s : Status) (c : Complaint)
    (h : dictGet db id = some c) :
    ∃ db2, update_status db id s = .ok ({ c with status := s }, db2) ∧
      ({ c with status := s } : Complaint).complaint_id = c.complaint_id ∧
      ({ c with status := s } : Complaint).timestamp = c.timestamp ∧
      ({ c with status := s } : Complaint).toComplaintIn = c.toComplaintIn ∧
      dictGet db2 id = some { c with status := s } ∧
      (∀ k, k ≠ id → dictGet db2 k = dictGet db k) ∧
      db2.map Prod.fst = db.map Prod.fst := by
  refine ⟨dictSet db id { c with status := s }, by simp [update_status, h],
    rfl, rfl, rfl, dictGet_dictSet_self .., fun k hk => dictGet_dictSet_ne _ _ hk,
    dictSet_keys_of_present _ _ _ _ h⟩

/-- C2 witness at a concrete two-element registry. -/
theorem update_status_frame_witness :
    ∃ db2,
      update_status
          [("CC2025-000000", mkSample .roads .pending "CC2025-000000" 5),
           ("CC2025-111111", mkSample .water .pending "CC2025-111111" 6)]
          "CC2025-000000" .inProgress =
        .ok ({ mkSample .roads .pending "CC2025-000000" 5 with status := .inProgress }, db2) ∧
      ({ mkSample .roads .pending "CC2025-000000" 5 with status := .inProgress } :
          Complaint).complaint_id = (mkSample .roads .pending "CC2025-000000" 5).complaint_id ∧
      ({ mkSample .roads .pending "CC2025-000000" 5 with status := .inProgress } :
          Complaint).timestamp = (mkSample .roads .pending "CC2025-000000" 5).timestamp ∧
      ({ mkSample .roads .pending "CC2025-000000" 5 with status := .inProgress } :
          Complaint).toComplaintIn = (mkSample .roads .pending "CC2025-000000" 5).toComplaintIn ∧
      dictGet db2 "CC2025-000000" =
        some { mkSample .roads .pending "CC2025-000000" 5 with status := .inProgress } ∧
      (∀ k, k ≠ "CC2025-000000" →
        dictGet db2 k =
          dictGet [("CC2025-000000", mkSample .roads .pending "CC2025-000000" 5),
                   ("CC2025-111111", mkSample .water .pending "CC2025-111111" 6)] k) ∧
      db2.map Prod.fst =
        ([("CC2025-000000", mkSample .roads .pending "CC2025-000000" 5),
          ("CC2025-111111", mkSample .water .pending "CC2025-111111" 6)] : DB).map Prod.fst :=
  update_status_frame _ "CC2025-000000" .inProgress
    (mkSample .roads .pending "CC2025-000000" 5) (by decide)

/-! ### C3: create and registry preservation -/

/-- C3 counterexample: `create_complaint` never checks the generated id for
freshness, and `DB[cid] = comp` replaces an existing record when the random
6-hex-digit suffix collides. With a registry already holding a complaint under
"CC2025-000000" and a uuid value of 0 in year 2025, the generated id is again
"CC2025-000000": after the create, the previously stored complaint is gone and
the registry has not grown — refuting "stores the new record without removing
or replacing any existing complaint". -/
theorem create_replaces_on_collision :
    mkSample .roads .pending "CC2025-000000" 5 ∈
      dictValues [("CC2025-000000", mkSample .roads .pending "CC2025-000000" 5)] ∧
    mkSample .roads .pending "CC2025-000000" 5 ∉
      dictValues (create_complaint
        [("CC2025-000000", mkSample .roads .pending "CC2025-000000" 5)]
        (samplePayload .water) 2025 0 9).2 ∧
    (dictValues (create_complaint
        [("CC2025-000000", mkSample .roads .pending "CC2025-000000" 5)]
        (samplePayload .water) 2025 0 9).2).length =
      (dictValues
        [("CC2025-000000", mkSample .roads .pending "CC2025-000000" 5)]).length := by
  decide

/-- C3 amended: `create_complaint` stores the new record under the generated
id `mkComplaintId year r`; when that id is not already a key, the registry is
exactly the old one with the single new entry appended (so it keeps every
previously stored complaint and gains exactly one); in general every key other
than the generated id keeps its old record, and the generated id now maps to
the new record (so a colliding key's previous record is replaced). -/
theorem create_store_spec (db : DB) (payload : ComplaintIn) (year r now : Nat) :
    (dictGet db (mkComplaintId year r) = none →
      (create_complaint db payload year r now).2 =
        db ++ [(mkComplaintId year r, (create_complaint db payload year r now).1)]) ∧
    dictGet (create_complaint db payload year r now).2 (mkComplaintId year r) =
      some (create_complaint db payload year r now).1 ∧
    ∀ k, k ≠ mkComplaintId year r →
      dictGet (create_complaint db payload year r now).2 k = dictGet db k := by
  refine ⟨fun h => ?_, dictGet_dictSet_self .., fun k hk => dictGet_dictSet_ne _ _ hk⟩
  exact dictSet_of_absent _ _ _ h

/-- C3 witness: creating into a registry not containing the generated id
appends exactly one record and leaves the other key's record in place. -/
theorem create_store_spec_witness :
    ((create_complaint [("CC2024-BBBBBB", mkSample .roads .pending "CC2024-BBBBBB" 1)]
        (samplePayload .roads) 2025 0 7).2 =
      [("CC2024-BBBBBB", mkSample .roads .pending "CC2024-BBBBBB" 1)] ++
        [(mkComplaintId 2025 0,
          (create_complaint [("CC2024-BBBBBB", mkSample .roads .pending "CC2024-BBBBBB" 1)]
            (samplePayload .roads) 2025 0 7).1)]) ∧
    dictGet (create_complaint [("CC2024-BBBBBB", mkSample .roads .pending "CC2024-BBBBBB" 1)]
        (samplePayload .roads) 2025 0 7).2 "CC2024-BBBBBB" =
      dictGet [("CC2024-BBBBBB", mkSample .roads .pending "CC2024-BBBBBB" 1)]
        "CC2024-BBBBBB" :=
  ⟨(create_store_spec [("CC2024-BBBBBB", mkSample .roads .pending "CC2024-BBBBBB" 1)]
      (samplePayload .roads) 2025 0 7).1 (by decide),
   (create_store_spec [("CC2024-BBBBBB", mkSample .roads .pending "CC2024-BBBBBB" 1)]
      (samplePayload .roads) 2025 0 7).2.2 "CC2024-BBBBBB" (by decide)⟩

/-! ### C4 / C5: list_complaints -/

/-- C4: the unfiltered listing is a permutation of the stored records and is
sorted by timestamp descending; in particular three complaints created at
times t1 < t2 < t3 are listed newest first as [c3, c2, c1]. -/
theorem list_no_filter_sorted (db : DB) (i1 i2 i3 : String) (c1 c2 c3 : Complaint)
    (h12 : c1.timestamp < c2.timestamp) (h23 : c2.timestamp < c3.timestamp) :
    (list_complaints db none).Perm (dictValues db) ∧
    List.Sorted tsDesc (list_complaints db none) ∧
    list_complaints [(i1, c1), (i2, c2), (i3, c3)] none = [c3, c2, c1] := by
  refine ⟨List.perm_insertionSort tsDesc _, List.sorted_insertionSort tsDesc _, ?_⟩
  have hn1 : ¬ tsDesc c2 c3 := by simp only [tsDesc]; omega
  have hn2 : ¬ tsDesc c1 c3 := by simp only [tsDesc]; omega
  have hn3 : ¬ tsDesc c1 c2 := by simp only [tsDesc]; omega
  simp [list_complaints, dictValues, hn1, hn2, hn3]

/-- C4 witness at three concrete complaints with timestamps 1 < 2 < 3. -/
theorem list_no_filter_sorted_witness :
    list_complaints [("a", mkSample .roads .pending "a" 1),
                     ("b", mkSample .water .pending "b" 2),
                     ("c", mkSample .health .pending "c" 3)] none =
      [mkSample .health .pending "c" 3, mkSample .water .pending "b" 2,
       mkSample .roads .pending "a" 1] :=
  (list_no_filter_sorted [] "a" "b" "c" (mkSample .roads .pending "a" 1)
    (mkSample .water .pending "b" 2) (mkSample .health .pending "c" 3)
    (by decide) (by decide)).2.2

/-- C5: the status-filtered listing is a permutation of exactly the stored
records whose status equals the filter (so it contains no others), sorted by
timestamp descending, and every listed record has the filtered status. -/
theorem list_filter_spec (db : DB) (s : Status) :
    (list_complaints db (some s)).Perm
      ((dictValues db).filter fun c => c.status = s) ∧
    List.Sorted tsDesc (list_complaints db (some s)) ∧
    ∀ c ∈ list_complaints db (some s), c.status = s := by
  refine ⟨List.perm_insertionSort tsDesc _, List.sorted_insertionSort tsDesc _,
    fun c hc => ?_⟩
  have hmem : c ∈ (dictValues db).filter fun c => c.status = s :=
    (List.perm_insertionSort tsDesc _).mem_iff.mp hc
  simpa using (List.mem_filter.mp hmem).2

/-- C5 witness: filtering a concrete registry for "Resolved". -/
theorem list_filter_spec_witness :
    (list_complaints [("a", mkSample .roads .resolved "a" 1),
                      ("b", mkSample .water .pending "b" 2),
                      ("c", mkSample .health .resolved "c" 3)] (some .resolved)).Perm
      ((dictValues [("a", mkSample .roads .resolved "a" 1),
                    ("b", mkSample .water .pending "b" 2),
                    ("c", mkSample .health .resolved "c" 3)]).filter
        fun c => c.status = Status.resolved) ∧
    (mkSample .health .resolved "c" 3).status = Status.resolved :=
  ⟨(list_filter_spec _ .resolved).1,
   (list_filter_spec [("a", mkSample .roads .resolved "a" 1),
                      ("b", mkSample .water .pending "b" 2),
                      ("c", mkSample .health .resolved "c" 3)] .resolved).2.2
     (mkSample .health .resolved "c" 3) (by decide)⟩

/-! ### C6 / C7 / C10: stats -/

theorem categoryStr_injective :
    ∀ a b : Category, categoryStr a = categoryStr b → a = b := by decide

theorem countsGet_bumpCategory_self (m : List (String × Nat)) (k : String) :
    countsGet (bumpCategory m k) k = some ((countsGet m k).getD 0 + 1) := by
  induction m with
  | nil => simp [bumpCategory, countsGet]
  | cons p rest ih =>
      obtain ⟨k', n⟩ := p
      by_cases h : k' = k <;> simp [bumpCategory, countsGet, h, ih]

theorem countsGet_bumpCategory_ne (m : List (String × Nat)) {k k2 : String}
    (h : k2 ≠ k) : countsGet (bumpCategory m k) k2 = countsGet m k2 := by
  induction m with
  | nil => simp [bumpCategory, countsGet, Ne.symm h]
  | cons p rest ih =>
      obtain ⟨k', n⟩ := p
      by_cases hk : k' = k
      · subst hk
        simp [bumpCategory, countsGet, Ne.symm h]
      · simp [bumpCategory, countsGet, hk, ih]

/-- Number of complaints in `cs` whose category serializes to the string `k`. -/
def cntCat (cs : List Complaint) (k : String) : Nat :=
  (cs.filter fun c => categoryStr c.category = k).length

theorem countsGet_fold (cs : List Complaint) (m : List (String × Nat)) (k : String) :
    countsGet (cs.foldl (fun m2 c => bumpCategory m2 (categoryStr c.category)) m) k =
      match countsGet m k with
      | some n => some (n + cntCat cs k)
      | none => if cntCat cs k = 0 then none else some (cntCat cs k) := by
  induction cs generalizing m with
  | nil => cases h : countsGet m k <;> simp [cntCat, h]
  | cons c cs ih =>
      rw [List.foldl_cons, ih]
      by_cases hc : categoryStr c.category = k
      · rw [hc, countsGet_bumpCategory_self]
        have hcnt : cntCat (c :: cs) k = cntCat cs k + 1 := by
          simp [cntCat, List.filter_cons, hc]
        rw [hcnt]
        cases h : countsGet m k <;> simp [h] <;> omega
      · rw [countsGet_bumpCategory_ne _ fun he => hc he.symm]
        have hcnt : cntCat (c :: cs) k = cntCat cs k := by
          simp [cntCat, List.filter_cons, hc]
        rw [hcnt]

theorem cntCat_eq_categoryCount (cs : List Complaint) (cat : Category) :
    cntCat cs (categoryStr cat) = (cs.filter fun c => c.category = cat).length := by
  induction cs with
  | nil => rfl
  | cons c cs ih =>
      by_cases h : c.category = cat
      · simp [cntCat, List.filter_cons, h] at ih ⊢
        omega
      · have h2 : ¬ categoryStr c.category = categoryStr cat :=
          fun he => h (categoryStr_injective _ _ he)
        simp [cntCat, List.filter_cons, h, h2] at ih ⊢
        exact ih

/-- The registry obtained by creating complaints with categories
["Roads", "Roads", "Water"] into an empty registry (distinct years keep the
generated ids distinct). -/
def exampleRegistry : DB :=
  (create_complaint
    (create_complaint
      (create_complaint [] (samplePayload .roads) 2023 0 1).2
      (samplePayload .roads) 2024 0 2).2
    (samplePayload .water) 2025 0 3).2

/-- C6: `stats().by_category` maps the string of each category to the number
of stored complaints having that category, omitting categories with zero
complaints; in particular after creating complaints with categories
["Roads", "Roads", "Water"] into an empty registry it equals
{"Roads": 2, "Water": 1}. -/
theorem stats_by_category_spec (db : DB) (cat : Category) :
    (countsGet (stats db).by_category (categoryStr cat) =
      if ((dictValues db).filter fun c => c.category = cat).length = 0 then none
      else some ((dictValues db).filter fun c => c.category = cat).length) ∧
    (stats exampleRegistry).by_category = [("Roads", 2), ("Water", 1)] := by
  constructor
  · have h := countsGet_fold (dictValues db) [] (categoryStr cat)
    rw [cntCat_eq_categoryCount] at h
    simpa [stats, statsByCategory, countsGet] using h
  · decide

/-- C7: `stats()` reports the number of stored complaints as `total` and the
per-status counts of the stored complaints as `pending` / `in_progress` /
`resolved`; on the empty registry all four counts are zero, the category
mapping is empty, and listing (with or without a filter) returns []. -/
theorem stats_counts_spec (db : DB) :
    (stats db).total = (dictValues db).length ∧
    (stats db).pending = (dictValues db).countP (fun c => c.status = Status.pending) ∧
    (stats db).in_progress =
      (dictValues db).countP (fun c => c.status = Status.inProgress) ∧
    (stats db).resolved = (dictValues db).countP (fun c => c.status = Status.resolved) ∧
    stats [] = ⟨0, 0, 0, 0, []⟩ ∧
    ∀ s : Option Status, list_complaints [] s = [] := by
  refine ⟨by simp [stats, dictValues], ?_, ?_, ?_, rfl, fun s => ?_⟩
  · rw [List.countP_eq_length_filter]; rfl
  · rw [List.countP_eq_length_filter]; rfl
  · rw [List.countP_eq_length_filter]; rfl
  · cases s <;> rfl

theorem length_filter_status (cs : List Complaint) :
    (cs.filter fun c => c.status = Status.pending).length +
      (cs.filter fun c => c.status = Status.inProgress).length +
      (cs.filter fun c => c.status = Status.resolved).length = cs.length := by
  induction cs with
  | nil => rfl
  | cons c cs ih => cases h : c.status <;> simp [List.filter_cons, h] <;> omega

theorem sum_bumpCategory (m : List (String × Nat)) (k : String) :
    ((bumpCategory m k).map Prod.snd).sum = (m.map Prod.snd).sum + 1 := by
  induction m with
  | nil => simp [bumpCategory]
  | cons p rest ih =>
      obtain ⟨k', n⟩ := p
      by_cases h : k' = k <;> simp [bumpCategory, h, ih] <;> omega

theorem sum_fold_bumpCategory (cs : List Complaint) (m : List (String × Nat)) :
    ((cs.foldl (fun m2 c => bumpCategory m2 (categoryStr c.category)) m).map
        Prod.snd).sum = (m.map Prod.snd).sum + cs.length := by
  induction cs generalizing m with
  | nil => simp
  | cons c cs ih =>
      rw [List.foldl_cons, ih, sum_bumpCategory, List.length_cons]; omega

/-- C10: the `stats()` record is internally consistent — `total` equals
`pending + in_progress + resolved`, and `total` equals the sum of all counts
in `by_category`. -/
theorem stats_consistent (db : DB) :
    (stats db).total =
      (stats db).pending + (stats db).in_progress + (stats db).resolved ∧
    (stats db).total = ((stats db).by_category.map Prod.snd).sum := by
  constructor
  · have h := length_filter_status (dictValues db)
    have h2 : (dictValues db).length = db.length := by simp [dictValues]
    simp only [stats]
    omega
  · have h := sum_fold_bumpCategory (dictValues db) []
    simp only [stats, statsByCategory]
    rw [h]
    simp [dictValues]

/-! ### C8: create_complaint result -/

theorem specDecChar_decDigit : ∀ d : Fin 10, specDecChar (decDigit d.val) = true := by
  decide

theorem specHexUpperChar_hexUpperChar :
    ∀ d : Fin 16, specHexUpperChar (hexUpperChar d.val) = true := by decide

theorem natDecDigitsAux_all_dec (fuel n : Nat) :
    ∀ ch ∈ natDecDigitsAux fuel n, specDecChar ch = true := by
  induction fuel generalizing n with
  | zero => simp [natDecDigitsAux]
  | succ f ih =>
      intro ch hch
      by_cases h : n < 10
      · simp only [natDecDigitsAux, if_pos h, List.mem_singleton] at hch
        subst hch
        exact specDecChar_decDigit ⟨n, h⟩
      · simp only [natDecDigitsAux, if_neg h, List.mem_append,
          List.mem_singleton] at hch
        rcases hch with hch | hch
        · exact ih (n / 10) ch hch
        · subst hch
          exact specDecChar_decDigit ⟨n % 10, Nat.mod_lt n (by omega)⟩

theorem natDecDigitsAux_len1 (fuel n : Nat) (hf : 0 < fuel) (h : n < 10) :
    (natDecDigitsAux fuel n).length = 1 := by
  cases fuel with
  | zero => omega
  | succ f => simp [natDecDigitsAux, h]

theorem natDecDigitsAux_len2 (fuel n : Nat) (hf : 1 < fuel) (h1 : 10 ≤ n)
    (h2 : n < 100) : (natDecDigitsAux fuel n).length = 2 := by
  cases fuel with
  | zero => omega
  | succ f =>
      have h3 : ¬ n < 10 := by omega
      simp [natDecDigitsAux, h3,
        natDecDigitsAux_len1 f (n / 10) (by omega) (by omega)]

theorem natDecDigitsAux_len3 (fuel n : Nat) (hf : 2 < fuel) (h1 : 100 ≤ n)
    (h2 : n < 1000) : (natDecDigitsAux fuel n).length = 3 := by
  cases fuel with
  | zero => omega
  | succ f =>
      have h3 : ¬ n < 10 := by omega
      simp [natDecDigitsAux, h3,
        natDecDigitsAux_len2 f (n / 10) (by omega) (by omega) (by omega)]

theorem natDecDigitsAux_len4 (fuel n : Nat) (hf : 3 < fuel) (h1 : 1000 ≤ n)
    (h2 : n < 10000) : (natDecDigitsAux fuel n).length = 4 := by
  cases fuel with
  | zero => omega
  | succ f =>
      have h3 : ¬ n < 10 := by omega
      simp [natDecDigitsAux, h3,
        natDecDigitsAux_len3 f (n / 10) (by omega) (by omega) (by omega)]

theorem spec_id_format_mkComplaintId (y r : Nat) (h1 : 1000 ≤ y) (h2 : y < 10000) :
    spec_id_format (mkComplaintId y r) = true := by
  have h4 : (natDecDigitsAux (y + 1) y).length = 4 :=
    natDecDigitsAux_len4 (y + 1) y (by omega) h1 h2
  have hall : ∀ ch ∈ natDecDigitsAux (y + 1) y, specDecChar ch = true :=
    natDecDigitsAux_all_dec (y + 1) y
  obtain ⟨a, b, c, d, hdec⟩ : ∃ a b c d, natDecDigitsAux (y + 1) y = [a, b, c, d] := by
    match hl : natDecDigitsAux (y + 1) y, h4 with
    | [a, b, c, d], _ => exact ⟨a, b, c, d, rfl⟩
  have hdata : (mkComplaintId y r).data =
      'C' :: 'C' :: ([a, b, c, d] ++
        '-' :: ((List.range 6).map fun i => hexUpperChar (uuidHexDigit r i))) := by
    simp [mkComplaintId, natDecString, uuidHex6, String.data_append, ← hdec]
  rw [hdec] at hall
  unfold spec_id_format
  rw [hdata]
  simp only [List.cons_append, List.nil_append, List.take, List.drop,
    List.length_cons, List.length_nil, List.all_cons, List.all_nil,
    Bool.and_true, decide_eq_true_eq]
  simp only [Bool.and_eq_true, decide_eq_true_eq, List.length_map,
    List.length_range, List.all_eq_true]
  refine ⟨⟨trivial, hall a ?_, hall b ?_, hall c ?_, hall d ?_⟩, ⟨trivial, ?_⟩⟩
  · simp
  · simp
  · simp
  · simp
  · intro ch hch
    obtain ⟨i, _, hi⟩ := List.mem_map.mp hch
    rw [← hi]
    exact specHexUpperChar_hexUpperChar
      ⟨uuidHexDigit r i, by simp only [uuidHexDigit]; omega⟩

/-- C8: a created complaint has an id of shape `CC<4-digit year>-<6 uppercase
hex chars>` (for any clock whose year has four digits), status "Pending", the
creation clock value as its timestamp, the submitted payload as its remaining
fields, and the returned record is exactly what the registry now stores under
its id. -/
theorem create_complaint_spec (db : DB) (payload : ComplaintIn) (year r now : Nat)
    (h1 : 1000 ≤ year) (h2 : year < 10000) :
    spec_id_format (create_complaint db payload year r now).1.complaint_id = true ∧
    (create_complaint db payload year r now).1.status = Status.pending ∧
    (create_complaint db payload year r now).1.timestamp = now ∧
    (create_complaint db payload year r now).1.toComplaintIn = payload ∧
    dictGet (create_complaint db payload year r now).2
        (create_complaint db payload year r now).1.complaint_id =
      some (create_complaint db payload year r now).1 :=
  ⟨spec_id_format_mkComplaintId year r h1 h2, rfl, rfl, rfl,
    dictGet_dictSet_self ..⟩

/-- C8 witness: creating into the empty registry in year 2025 with uuid 0 and
clock 7. -/
theorem create_complaint_spec_witness :
    spec_id_format (create_complaint [] (samplePayload .roads) 2025 0 7).1.complaint_id
        = true ∧
    (create_complaint [] (samplePayload .roads) 2025 0 7).1.status = Status.pending ∧
    (create_complaint [] (samplePayload .roads) 2025 0 7).1.timestamp = 7 ∧
    (create_complaint [] (samplePayload .roads) 2025 0 7).1.toComplaintIn =
      samplePayload .roads ∧
    dictGet (create_complaint [] (samplePayload .roads) 2025 0 7).2
        (create_complaint [] (samplePayload .roads) 2025 0 7).1.complaint_id =
      some (create_complaint [] (samplePayload .roads) 2025 0 7).1 :=
  create_complaint_spec [] (samplePayload .roads) 2025 0 7 (by decide) (by decide)

/-! ### C9: validation -/

theorem parseCategory_isSome_iff (s : String) :
    (parseCategory s).isSome = true ↔ s ∈ categoryStrings := by
  unfold parseCategory categoryStrings
  split_ifs with h1 h2 h3 h4 h5 h6 h7 h8 h9 h10 <;> simp_all

theorem parsePriority_isSome_iff (s : String) :
    (parsePriority s).isSome = true ↔ s ∈ priorityStrings := by
  unfold parsePriority priorityStrings
  split_ifs with h1 h2 h3 <;> simp_all

theorem parseLevel_isSome_iff (s : String) :
    (parseLevel s).isSome = true ↔ s ∈ levelStrings := by
  unfold parseLevel levelStrings
  split_ifs with h1 h2 h3 <;> simp_all

/-- C9: `POST /complaints` succeeds exactly when all three enum fields of the
raw payload lie in their closed string enumerations; when some enum field is
out of its set, the request fails with a validation error naming one of the
enum fields and the registry is left unchanged. -/
theorem create_validation_spec (db : DB) (rc : RawComplaintIn) (year r now : Nat) :
    ((∃ c, (postComplaint db rc year r now).1 = .ok c) ↔
      (rc.category ∈ categoryStrings ∧ rc.priority ∈ priorityStrings ∧
        rc.level ∈ levelStrings)) ∧
    ∀ e, (postComplaint db rc year r now).1 = .error e →
      (postComplaint db rc year r now).2 = db ∧
      (e.field = "category" ∨ e.field = "priority" ∨ e.field = "level") := by
  rw [← parseCategory_isSome_iff, ← parsePriority_isSome_iff, ← parseLevel_isSome_iff]
  constructor
  · cases hc : parseCategory rc.category <;> cases hp : parsePriority rc.priority <;>
      cases hl : parseLevel rc.level <;>
        simp [postComplaint, validateComplaintIn, hc, hp, hl]
  · intro e he
    cases hc : parseCategory rc.category <;> cases hp : parsePriority rc.priority <;>
      cases hl : parseLevel rc.level <;>
        simp_all [postComplaint, validateComplaintIn, hc, hp, hl] <;>
          (subst he; simp)

/-- C9 witness: a payload with all enum fields in range is accepted; one with
an out-of-enum category is rejected, names the category field, and leaves the
registry unchanged. -/
theorem create_validation_spec_witness :
    (∃ c, (postComplaint []
        { user_id := "u1", text := "t", category := "Roads", priority := "High",
          level := "Local" } 2025 0 7).1 = .ok c) ∧
    ((postComplaint []
        { user_id := "u1", text := "t", category := "Potholes", priority := "High",
          level := "Local" } 2025 0 7).2 = ([] : DB) ∧
      ((⟨"category"⟩ : ValidationErr).field = "category" ∨
        (⟨"category"⟩ : ValidationErr).field = "priority" ∨
        (⟨"category"⟩ : ValidationErr).field = "level")) :=
  ⟨(create_validation_spec [] _ 2025 0 7).1.mpr (by decide),
   (create_validation_spec []
      { user_id := "u1", text := "t", category := "Potholes", priority := "High",
        level := "Local" } 2025 0 7).2 ⟨"category"⟩ rfl⟩
